import Mathlib

/-!
Verification development for the stdio continuity protocol of
`pdum/criu/goblins/__init__.py` (freeze/thaw of pipe-connected processes).

Modelling conventions:
* Python exceptions become the `PyError` sum; a function that can raise
  returns `Except PyError _`.
* The filesystem slice holding the checkpoint metadata file is a map from
  path strings to parsed JSON values (`FS`); `json.dumps`/`json.loads` of
  the standard library are treated as a faithful serialisation pair, so a
  file's content is modelled as the JSON value it parses to.
* OS-level effects on file descriptors (pipe creation, close,
  set_inheritable) act on an explicit `OS` state holding the list of open
  descriptors of the calling process.
* External collaborators (sudo/criu resolution, the criu dump/restore
  subprocess exit codes, `os.readlink` on /proc, `crit` runs, wall-clock
  reads, pidfile contents observed at each poll) are oracle fields of
  explicit world structures, so each code path is a pure function of the
  world.
* `Path.expanduser().resolve()` is modelled as the identity on the already
  canonical path strings used throughout.
-/

namespace PdumCriu

/-- Python exception values raised by the code paths under study. -/
inductive PyError where
  | valueError (msg : String)
  | runtimeError (msg : String)
  | keyError (msg : String)
deriving DecidableEq, Repr

/-- A parsed JSON value (only the shapes the metadata file can hold). -/
inductive JVal where
  | str (s : String)
  | num (n : Int)
  | obj (fields : List (String × JVal))
deriving Repr

/-- First-match lookup in a JSON object's field list (Python dict access). -/
def jLookup : List (String × JVal) → String → Option JVal
  | [], _ => none
  | (k, v) :: rest, key => if k = key then some v else jLookup rest key

/-- Dict membership / item access on a JSON value (`meta["pipe_ids"]`). -/
def metaLookup (v : JVal) (key : String) : Option JVal :=
  match v with
  | .obj fields => jLookup fields key
  | _ => none

/-- The Stdio Identity Triple: kernel pipe identity of each standard stream. -/
structure PipeIds where
  stdin : String
  stdout : String
  stderr : String
deriving DecidableEq, Repr

/-- The triple as the JSON object `{"stdin": …, "stdout": …, "stderr": …}`. -/
def tripleToJson (p : PipeIds) : JVal :=
  .obj [("stdin", .str p.stdin), ("stdout", .str p.stdout), ("stderr", .str p.stderr)]

/-- Reading the three fixed keys of a pipe-ids record back into a triple
(the accesses `pipe_ids["stdin"]` etc. performed later by the thaw path). -/
def decodeTriple (v : JVal) : Option PipeIds :=
  match metaLookup v "stdin", metaLookup v "stdout", metaLookup v "stderr" with
  | some (.str a), some (.str b), some (.str c) => some ⟨a, b, c⟩
  | _, _, _ => none

/-- The filesystem slice of metadata files: path → parsed JSON content. -/
def FS : Type := String → Option JVal

/-- Python repr of a short string (used in error messages via `{target!r}`);
escaping of special characters inside the token is not modelled. -/
def pyReprStr (s : String) : String := "\x27" ++ s ++ "\x27"

/-- The fixed metadata filename (`_META_NAME`). -/
def META_NAME : String := ".pdum_goblin_meta.json"

/-- Path of the metadata file inside an image directory (`_metadata_path`). -/
def metadata_path (images_dir : String) : String := images_dir ++ "/" ++ META_NAME

/-- The record `_record_freeze_metadata` serialises. -/
def metaJson (pid : Int) (pipe_ids : PipeIds) (captured_at : String) : JVal :=
  .obj [("pid", .num pid), ("pipe_ids", tripleToJson pipe_ids),
        ("captured_at", .str captured_at)]

/-- Write (`_record_freeze_metadata`) the metadata record into the image dir. -/
def record_freeze_metadata (fs : FS) (images_dir : String) (pid : Int)
    (pipe_ids : PipeIds) (captured_at : String) : FS :=
  fun p => if p = metadata_path images_dir then some (metaJson pid pipe_ids captured_at)
           else fs p

/-- Read the metadata file (`_load_metadata`): missing file yields the empty dict, never an error. -/
def load_metadata (fs : FS) (images_dir : String) : JVal :=
  match fs (metadata_path images_dir) with
  | none => .obj []
  | some v => v

/-- Error message of `_collect_pipe_ids_from_proc` for a non-pipe stream. -/
def nonPipeMsg (fd : Nat) (name target : String) : String :=
  "fd " ++ toString fd ++ " (" ++ name ++ ") is not an unnamed pipe (target=" ++
    pyReprStr target ++ "); goblins require pipe stdio"

/-- Python `s.startswith(pre)`, over the character lists (structurally
recursive, unlike `String.startsWith`, so concrete instances evaluate). -/
def startsWithPy (s pre : String) : Bool := List.isPrefixOf pre.data s.data

/-- One iteration of `_collect_pipe_ids_from_proc`'s loop: readlink the
descriptor and insist the target is an anonymous pipe. -/
def collectOne (readlink : Nat → Except String String) (name : String) (fd : Nat) :
    Except PyError String :=
  match readlink fd with
  | .error exc => .error (.runtimeError ("failed to inspect fd " ++ toString fd ++ ": " ++ exc))
  | .ok target =>
      if startsWithPy target "pipe:[" then .ok target
      else .error (.runtimeError (nonPipeMsg fd name target))

/-- Resolve fds 0/1/2 of the target process (`_collect_pipe_ids_from_proc`),
in the source's iteration order stdin, stdout, stderr. -/
def collect_pipe_ids_from_proc (readlink : Nat → Except String String) :
    Except PyError PipeIds :=
  match collectOne readlink "stdin" 0 with
  | .error e => .error e
  | .ok a =>
    match collectOne readlink "stdout" 1 with
    | .error e => .error e
    | .ok b =>
      match collectOne readlink "stderr" 2 with
      | .error e => .error e
      | .ok c => .ok ⟨a, b, c⟩

/-- Oracles for the freeze path's external collaborators. -/
structure FreezeWorld where
  ensure_linux : Except PyError Unit
  ensure_sudo : Except PyError Unit
  ensure_criu : Except PyError (Option String)
  resolve_command : String → String
  readlink : Int → Nat → Except String String
  dump_rc : Int
  now_iso : String

/-- Python falsiness of `str | None` (`if not criu_path`). -/
def pyFalsyStrOpt : Option String → Bool
  | none => true
  | some s => s = ""

/-- The `_FreezeContext` record. -/
structure FreezeContext where
  command : List String
  log_path : String
  images_dir : String
  pid : Int
  leave_running : Bool
  pipe_ids : PipeIds
deriving Repr

/-- Build the freeze context (`_build_freeze_context`): environment checks, stdio identity resolution,
log-path resolution and criu dump command assembly.  Directory creation
(`mkdir`) touches only directories, never the metadata file, and is not
tracked in `FS`. -/
def build_freeze_context (w : FreezeWorld) (pid : Int) (images_dir : String)
    (leave_running : Bool) (log_path : Option String) (verbosity : Nat)
    (extra_args : List String) : Except PyError FreezeContext :=
  match w.ensure_linux with
  | .error e => .error e
  | .ok _ =>
    match w.ensure_sudo with
    | .error e => .error e
    | .ok _ =>
      match w.ensure_criu with
      | .error e => .error e
      | .ok copt =>
        if pyFalsyStrOpt copt then
          .error (.runtimeError "CRIU executable not found")
        else
          let criu_path := copt.getD ""
          match collect_pipe_ids_from_proc (w.readlink pid) with
          | .error e => .error e
          | .ok pipe_ids =>
            let resolved_log :=
              match log_path with
              | none => images_dir ++ "/goblin-freeze." ++ toString pid ++ ".log"
              | some lp => lp
            let command :=
              [w.resolve_command "sudo", "-n", criu_path, "dump", "-D", images_dir,
               "-t", toString pid, "-o", resolved_log, "-v" ++ toString verbosity] ++
              (if leave_running then ["--leave-running"] else []) ++ extra_args
            .ok ⟨command, resolved_log, images_dir, pid, leave_running, pipe_ids⟩

/-- Handle the dump status (`_handle_freeze_result`): non-zero dump status becomes a RuntimeError
(the log tail is only logged, not part of the exception). -/
def handle_freeze_result (returncode : Int) : Except PyError Unit :=
  if returncode = 0 then .ok ()
  else .error (.runtimeError ("CRIU dump failed with exit code " ++ toString returncode))

/-- The synchronous checkpoint entry point (`freeze`).  Returns the criu log
path and the filesystem slice after any metadata write. -/
def freeze (w : FreezeWorld) (fs : FS) (pid : Int) (images_dir : String)
    (leave_running : Bool) (log_path : Option String) (verbosity : Nat)
    (extra_args : List String) : Except PyError String × FS :=
  if pid ≤ 0 then (.error (.valueError "PID must be a positive integer"), fs)
  else
    match build_freeze_context w pid images_dir leave_running log_path verbosity extra_args with
    | .error e => (.error e, fs)
    | .ok ctx =>
      match handle_freeze_result w.dump_rc with
      | .error e => (.error e, fs)
      | .ok _ =>
        let fs' := record_freeze_metadata fs ctx.images_dir pid ctx.pipe_ids w.now_iso
        (.ok ctx.log_path, fs')

/-- The async checkpoint entry point (`freeze_async`): identical pipeline but with no positivity check on the
pid (the async variant goes straight to `_build_freeze_context`). -/
def freeze_async (w : FreezeWorld) (fs : FS) (pid : Int) (images_dir : String)
    (leave_running : Bool) (log_path : Option String) (verbosity : Nat)
    (extra_args : List String) : Except PyError String × FS :=
  match build_freeze_context w pid images_dir leave_running log_path verbosity extra_args with
  | .error e => (.error e, fs)
  | .ok ctx =>
    match handle_freeze_result w.dump_rc with
    | .error e => (.error e, fs)
    | .ok _ =>
      let fs' := record_freeze_metadata fs ctx.images_dir pid ctx.pipe_ids w.now_iso
      (.ok ctx.log_path, fs')

/-! ### Descriptor state and the Continuity Substrate (`_StdioPipes`) -/

/-- Open descriptors of the calling process, plus which are inheritable. -/
structure OS where
  openFds : List Nat
  inheritable : List Nat
deriving DecidableEq, Repr

/-- Close a descriptor (`os.close`); closing an already-closed descriptor (OSError swallowed
by the callers under study) leaves the state unchanged. -/
def osClose (os : OS) (fd : Nat) : OS := { os with openFds := os.openFds.erase fd }

/-- Allocate a pipe (`os.pipe`): both fresh ends become open descriptors. -/
def osPipe (os : OS) (r w : Nat) : OS := { os with openFds := os.openFds ++ [r, w] }

/-- Mark a descriptor inheritable (`_make_inheritable`). -/
def osSetInheritable (os : OS) (fd : Nat) : OS :=
  { os with inheritable := os.inheritable ++ [fd] }

/-- The descriptor numbers `os.pipe()` returns for the three pipes of one
substrate instance, in allocation order stdin, stdout, stderr. -/
structure PipeAlloc where
  r_stdin : Nat
  w_stdin : Nat
  r_stdout : Nat
  w_stdout : Nat
  r_stderr : Nat
  w_stderr : Nat
deriving DecidableEq, Repr

/-- The continuity substrate's descriptor bookkeeping (`_StdioPipes`). -/
structure StdioPipes where
  pipe_ids : PipeIds
  parent_stdin_fd : Option Nat
  parent_stdout_fd : Option Nat
  parent_stderr_fd : Option Nat
  child_fds : List Nat
  inherit_args : List String
deriving DecidableEq, Repr

/-- Insertion into the `inherit_map` dict: replace an existing key in place,
else append (Python dict insertion-order semantics). -/
def dictInsert (m : List (Nat × String)) (k : Nat) (v : String) : List (Nat × String) :=
  if (m.map Prod.fst).contains k then
    m.map (fun kv => if kv.1 = k then (k, v) else kv)
  else m ++ [(k, v)]

/-- One `--inherit-fd` binding value: `fd[N]:pipeIdentity`. -/
def inheritArg (fd : Nat) (pipe_id : String) : String :=
  "fd[" ++ toString fd ++ "]:" ++ pipe_id

/-- Allocate three pipes (`_StdioPipes._create_pipes`, run by `__init__`),
mark the donated ends inheritable, retain the opposite ends, and build the
`--inherit-fd` instruction list.  The source keeps `pipe_ids` as a dict and
reads its three keys here; the triple is passed already decoded. -/
def create_pipes (t : PipeIds) (a : PipeAlloc) (os : OS) : StdioPipes × OS :=
  let os3 := osPipe (osPipe (osPipe os a.r_stdin a.w_stdin) a.r_stdout a.w_stdout)
      a.r_stderr a.w_stderr
  let os4 := osSetInheritable (osSetInheritable (osSetInheritable os3 a.r_stdin)
      a.w_stdout) a.w_stderr
  let inherit_map := dictInsert (dictInsert (dictInsert [] a.r_stdin t.stdin)
      a.w_stdout t.stdout) a.w_stderr t.stderr
  let iargs := inherit_map.foldl (fun acc kv => acc ++ ["--inherit-fd", inheritArg kv.1 kv.2]) []
  ({ pipe_ids := t
     parent_stdin_fd := some a.w_stdin
     parent_stdout_fd := some a.r_stdout
     parent_stderr_fd := some a.r_stderr
     child_fds := [a.r_stdin, a.w_stdout, a.w_stderr]
     inherit_args := iargs }, os4)

/-- Close every donated end, then clear (`_StdioPipes.close_child_fds`). -/
def close_child_fds (p : StdioPipes) (os : OS) : StdioPipes × OS :=
  ({ p with child_fds := [] }, p.child_fds.foldl osClose os)

/-- Close an optional descriptor if still held. -/
def closeOpt (os : OS) : Option Nat → OS
  | none => os
  | some fd => osClose os fd

/-- Close every retained end, then clear (`_StdioPipes.close_parent_ends`). -/
def close_parent_ends (p : StdioPipes) (os : OS) : StdioPipes × OS :=
  ({ p with parent_stdin_fd := none, parent_stdout_fd := none, parent_stderr_fd := none },
   closeOpt (closeOpt (closeOpt os p.parent_stdin_fd) p.parent_stdout_fd) p.parent_stderr_fd)

/-- One-shot transfer (`_StdioPipes.build_sync_streams`) of the three retained
ends to the caller; fails once any retained end is no longer held. -/
def build_sync_streams (p : StdioPipes) :
    Except PyError ((Nat × Nat × Nat) × StdioPipes) :=
  match p.parent_stdin_fd, p.parent_stdout_fd, p.parent_stderr_fd with
  | some a, some b, some c =>
      .ok ((a, b, c),
        { p with parent_stdin_fd := none, parent_stdout_fd := none, parent_stderr_fd := none })
  | _, _, _ => .error (.runtimeError "stdio pipes already closed")

/-! ### Thaw (resume) path -/

/-- Outcome of `utils.tail_file` as the thaw failure handler observes it. -/
inductive TailResult where
  | ok (s : String)
  | permissionError
  | osError (msg : String)
deriving DecidableEq, Repr

/-- Oracles for the thaw path's external collaborators.  `now_log` and
`now_pid` are the integer parts of the two successive `time.time()` reads
that name the log and pidfile; `alloc` is what `os.pipe()` hands out;
`pidfileObs k` is the pidfile's content (if the file exists) at the k-th
poll, and `polls` is how many polls fit before the deadline. -/
structure ThawWorld where
  dirExists : String → Bool
  pipe_ids_from_images : String → Except PyError PipeIds
  resolve_sudo : String
  criu_ns : Except PyError String
  criu : Except PyError String
  now_log : Nat
  now_pid : Nat
  sudo_closefrom : Except PyError Unit
  restore_rc : Int
  tail : String → TailResult
  alloc : PipeAlloc
  pidfileObs : Nat → Option String
  polls : Nat

/-- The `_ThawContext` record. -/
structure ThawContext where
  command : List String
  log_path : String
  images_dir : String
  pipe_ids : JVal
  pidfile : String
  sudo_cmd : String
deriving Repr

/-- Build the thaw context (`_build_thaw_context`): existence check, metadata load with fallback to
the image identity recoverer, per-call log/pidfile naming from
`int(time.time())`, restore binary resolution (criu-ns preferred, plain
criu as fallback) and restore command assembly. -/
def build_thaw_context (w : ThawWorld) (fs : FS) (images_dir : String)
    (extra_args : List String) : Except PyError ThawContext :=
  let images := images_dir
  if ¬ w.dirExists images then
    .error (.runtimeError ("images directory does not exist: " ++ images))
  else
    let meta := load_metadata fs images
    let pipeIdsE : Except PyError JVal :=
      match metaLookup meta "pipe_ids" with
      | none => (w.pipe_ids_from_images images).map tripleToJson
      | some v => .ok v
    match pipeIdsE with
    | .error e => .error e
    | .ok pipe_ids =>
      let log_path := images ++ "/goblin-thaw." ++ toString w.now_log ++ ".log"
      let pidfile := images ++ "/goblin-thaw." ++ toString w.now_pid ++ ".pid"
      let sudo_cmd := w.resolve_sudo
      let restoreCmdE : Except PyError (List String) :=
        match w.criu_ns with
        | .ok c => .ok [c]
        | .error _ => w.criu.map (fun c => [c])
      match restoreCmdE with
      | .error e => .error e
      | .ok restore_cmd =>
        .ok { command := [sudo_cmd, "-n"] ++ restore_cmd ++
                ["restore", "-D", images, "-o", log_path, "--pidfile", pidfile] ++ extra_args
              log_path := log_path
              images_dir := images
              pipe_ids := pipe_ids
              pidfile := pidfile
              sudo_cmd := sudo_cmd }

/-- Python `list.insert(i, a)` (clamping at the ends). -/
def listInsertAt (l : List α) (i : Nat) (a : α) : List α :=
  l.take i ++ [a] ++ l.drop i

/-- Maximum over the donated descriptor numbers (list known non-empty). -/
def maxFd (l : List Nat) : Nat := l.foldl Nat.max 0

/-- Build the thaw failure error (`_handle_thaw_failure`): read the log tail (with the two handled read
failures) and raise carrying the exit status and the excerpt. -/
def handle_thaw_failure (w : ThawWorld) (returncode : Int) (log_path : String) : PyError :=
  let log_tail :=
    match w.tail log_path with
    | .ok s => s
    | .permissionError => "(log unreadable due to permission error)"
    | .osError m => "(failed to read log: " ++ m ++ ")"
  .runtimeError ("CRIU restore failed with exit code " ++ toString returncode ++
    ". Log tail:\n" ++ log_tail)

/-- Run the restore engine (`_run_criu_restore`): raise sudo's close-from threshold over the donated
descriptors, append the inheritance bindings, run the engine with the
donated fds passed through; on non-zero status close the retained ends and
fail (the donated ends are only closed on the success path — the
`close_child_fds()` call sits after the raise). -/
def run_criu_restore (w : ThawWorld) (ctx : ThawContext) (p : StdioPipes) (os : OS) :
    Except PyError Unit × StdioPipes × OS :=
  match w.sudo_closefrom with
  | .error e => (.error e, p, os)
  | .ok _ =>
    let command0 := ctx.command
    let command1 :=
      if p.child_fds ≠ [] then
        listInsertAt (listInsertAt command0 1 (toString (maxFd p.child_fds + 1))) 1 "-C"
      else command0
    let _command := command1 ++ p.inherit_args
    if w.restore_rc ≠ 0 then
      let (p1, os1) := close_parent_ends p os
      (.error (handle_thaw_failure w w.restore_rc ctx.log_path), p1, os1)
    else
      let (p1, os1) := close_child_fds p os
      (.ok (), p1, os1)

/-- The characters Python `str.strip()` removes. -/
def pyIsSpace (c : Char) : Bool :=
  c == ' ' || c == '\t' || c == '\n' || c == '\r' || c == '\x0b' || c == '\x0c'

/-- Python `s.strip()`, over the character list. -/
def pyStrip (s : String) : String :=
  String.mk (((s.data.dropWhile pyIsSpace).reverse.dropWhile pyIsSpace).reverse)

/-- Python `s.isdigit()`: non-empty and all digits. -/
def pyIsDigit (s : String) : Bool := s.data ≠ [] && s.data.all Char.isDigit

/-- Python `int(content)` on an all-digit string. -/
def pyParseNat (s : String) : Nat :=
  s.data.foldl (fun acc c => acc * 10 + (c.toNat - 48)) 0

/-- Poll the pidfile (`_wait_for_pidfile`) until its (stripped) content is
all digits, or the deadline passes.  `fuel` is the number of polls the
deadline still allows and `k` indexes the observation stream. -/
def wait_for_pidfile (obs : Nat → Option String) (pidfile : String) :
    Nat → Nat → Except PyError Nat
  | 0, _ => .error (.runtimeError ("Timed out waiting for CRIU pidfile " ++ pidfile))
  | fuel + 1, k =>
    match obs k with
    | some raw =>
        let content := pyStrip raw
        if pyIsDigit content then .ok (pyParseNat content)
        else wait_for_pidfile obs pidfile fuel (k + 1)
    | none => wait_for_pidfile obs pidfile fuel (k + 1)

/-- The resumed-process handle (streams carried as their descriptors). -/
structure GoblinProcess where
  pid : Nat
  stdin_fd : Nat
  stdout_fd : Nat
  stderr_fd : Nat
  images_dir : String
  log_path : String
deriving DecidableEq, Repr

/-- The resume entry point (`thaw`): build the context, allocate the substrate, run the restore
engine and wait for the pid, unwinding the retained ends on any failure in
that try-block; finally hand the retained ends to the caller.  Returns the
final descriptor state of the calling process alongside the result. -/
def thaw (w : ThawWorld) (fs : FS) (os : OS) (images_dir : String)
    (extra_args : List String) : Except PyError GoblinProcess × OS :=
  match build_thaw_context w fs images_dir extra_args with
  | .error e => (.error e, os)
  | .ok ctx =>
    match decodeTriple ctx.pipe_ids with
    | none => (.error (.keyError "stdio pipe id missing"), os)
    | some t =>
      let (p0, os0) := create_pipes t w.alloc os
      match run_criu_restore w ctx p0 os0 with
      | (.error e, p1, os1) =>
          let (_, os2) := close_parent_ends p1 os1
          (.error e, os2)
      | (.ok _, p1, os1) =>
        match wait_for_pidfile w.pidfileObs ctx.pidfile w.polls 0 with
        | .error e =>
            let (_, os2) := close_parent_ends p1 os1
            (.error e, os2)
        | .ok pid =>
          match build_sync_streams p1 with
          | .error e => (.error e, os1)
          | .ok ((a, b, c), _) =>
              (.ok { pid := pid, stdin_fd := a, stdout_fd := b, stderr_fd := c,
                     images_dir := ctx.images_dir, log_path := ctx.log_path }, os1)

/-! ### Image introspection (`_crit_show_json`) -/

/-- Oracles for `crit` subprocess runs: `run args = (returncode, stdout,
stderr)`; `parse` is `json.loads` on a stdout capture. -/
structure CritWorld where
  run : List String → Int × String × String
  parse : String → Except String JVal

/-- Python `a or b` on strings (empty string is falsy). -/
def pyOrStr (a b : String) : String := if a = "" then b else a

/-- Python `last_error or fallback` where `last_error` may still be None. -/
def lastOr (last : Option String) (d : String) : String :=
  match last with
  | none => d
  | some s => if s = "" then d else s

/-- The fixed list of invocation variants, in the order the source tries. -/
def candidate_args (image_path : String) : List (List String) :=
  [["show", "-i", image_path, "--pretty"],
   ["show", "-i", image_path, "--format", "json"],
   ["show", "-i", image_path, "-f", "json"],
   ["show", image_path, "--format", "json"],
   ["show", image_path, "-f", "json"],
   ["show", image_path]]

/-- What one variant yields: the parsed JSON, or the error string recorded
into `last_error` (stderr-or-stdout on non-zero exit, the decode error on
unparseable output). -/
def variantOutcome (w : CritWorld) (crit_bin : String) (args : List String) :
    Except String JVal :=
  let res := w.run (crit_bin :: args)
  if res.1 ≠ 0 then .error (pyOrStr res.2.2 res.2.1)
  else
    match w.parse res.2.1 with
    | .ok v => .ok v
    | .error exc => .error exc

/-- The loop of `_crit_show_json` over the remaining variants, carrying
`last_error`. -/
def critGo (w : CritWorld) (crit_bin : String) (image_path : String) :
    List (List String) → Option String → Except PyError JVal
  | [], last =>
      .error (.runtimeError ("crit show failed for " ++ image_path ++ ": " ++
        lastOr last "unknown error"))
  | args :: rest, _last =>
      let res := w.run (crit_bin :: args)
      if res.1 ≠ 0 then critGo w crit_bin image_path rest (some (pyOrStr res.2.2 res.2.1))
      else
        match w.parse res.2.1 with
        | .ok v => .ok v
        | .error exc => critGo w crit_bin image_path rest (some exc)

/-- Try the variants in order (`_crit_show_json`), accepting the first that
exits zero with parseable JSON, surface the last error if all fail. -/
def crit_show_json (w : CritWorld) (crit_bin : String) (image_path : String) :
    Except PyError JVal :=
  critGo w crit_bin image_path (candidate_args image_path) none

/-- The first variant outcome that parses, in try order. -/
def firstOkJson (w : CritWorld) (crit_bin : String) : List (List String) → Option JVal
  | [] => none
  | args :: rest =>
      match variantOutcome w crit_bin args with
      | .ok v => some v
      | .error _ => firstOkJson w crit_bin rest

/-! ### Concrete worlds used to evaluate the model on specific inputs -/

/-- The empty metadata filesystem slice. -/
def fsEmpty : FS := fun _ => none

/-- A concrete Stdio Identity Triple. -/
def tripleConc : PipeIds := ⟨"pipe:[11]", "pipe:[12]", "pipe:[13]"⟩

/-- A filesystem slice holding the metadata a freeze of pid 42 wrote. -/
def fsMeta : FS := record_freeze_metadata fsEmpty "/img" 42 tripleConc "2026-01-01T00:00:00+00:00"

/-- A freeze world whose target process has a terminal on fd 1. -/
def fwBadTty : FreezeWorld where
  ensure_linux := .ok ()
  ensure_sudo := .ok ()
  ensure_criu := .ok (some "/usr/bin/criu")
  resolve_command := fun c => "/usr/bin/" ++ c
  readlink := fun _ fd => if fd = 1 then .ok "/dev/pts/0" else .ok "pipe:[100]"
  dump_rc := 0
  now_iso := "2026-01-01T00:00:00+00:00"

/-- A freeze world in which the platform check itself fails. -/
def fwNoLinux : FreezeWorld :=
  { fwBadTty with ensure_linux := .error (.runtimeError "goblins require Linux") }

/-- A thaw world whose restore invocation exits with status 1, with pipe
descriptors 3–8 handed out. -/
def twFail : ThawWorld where
  dirExists := fun _ => true
  pipe_ids_from_images := fun _ => .error (.runtimeError "crit utility not found")
  resolve_sudo := "/usr/bin/sudo"
  criu_ns := .ok "/usr/sbin/criu-ns"
  criu := .ok "/usr/bin/criu"
  now_log := 12345
  now_pid := 12345
  sudo_closefrom := .ok ()
  restore_rc := 1
  tail := fun _ => .ok "boom"
  alloc := ⟨3, 4, 5, 6, 7, 8⟩
  pidfileObs := fun _ => none
  polls := 250

/-- A second, concurrent thaw call in the same wall-clock second: different
descriptors, different engine outcome, same `int(time.time())`. -/
def twSecond : ThawWorld :=
  { twFail with
    alloc := ⟨10, 11, 12, 13, 14, 15⟩
    restore_rc := 0
    pidfileObs := fun _ => some "4242" }

/-- A thaw world whose image identity recoverer succeeds (for resumes that
must fall back to the checkpoint images). -/
def twRecover : ThawWorld :=
  { twFail with pipe_ids_from_images := fun _ => .ok tripleConc }

/-- A substrate state holding the three retained ends 4, 5, 7. -/
def pConc : StdioPipes :=
  { pipe_ids := tripleConc
    parent_stdin_fd := some 4
    parent_stdout_fd := some 5
    parent_stderr_fd := some 7
    child_fds := [3, 6, 8]
    inherit_args := [] }

/-- A crit world whose every invocation prints an empty JSON object. -/
def cwOk : CritWorld where
  run := fun _ => (0, "\x7b\x7d", "")
  parse := fun s => if s = "\x7b\x7d" then .ok (.obj []) else .error "bad json"

/-- A crit world whose every invocation exits 1 with the same stderr. -/
def cwFail : CritWorld where
  run := fun _ => (1, "", "enoent")
  parse := fun _ => .error "bad json"

/-- Pidfile observations: the file appears at the third poll with a pid
surrounded by whitespace. -/
def obsLate : Nat → Option String := fun j => if j = 2 then some " 4242\n" else none

/-- Pidfile observations: the file exists but never holds digits. -/
def obsJunk : Nat → Option String := fun _ => some "pending"

/-! ### Claims -/

/-- C5: a Stdio Identity Triple written by the metadata store into an image
directory is returned identically by a later metadata read of the same
directory: the stored `pipe_ids` record is exactly the written triple's
object, and reading its three stream keys gives back the same identity
strings. -/
theorem metadata_roundtrip (fs : FS) (dir : String) (pid : Int) (t : PipeIds) (ts : String) :
    metaLookup (load_metadata (record_freeze_metadata fs dir pid t ts) dir) "pipe_ids"
        = some (tripleToJson t)
    ∧ decodeTriple (tripleToJson t) = some t := by
  constructor
  · simp [load_metadata, record_freeze_metadata, metaJson, metaLookup, jLookup]
  · simp [decodeTriple, tripleToJson, metaLookup, jLookup]

/-- C9: taking the retained ends is one-shot: on a substrate still holding
its three retained ends the first take returns exactly those descriptors
and clears them; a second take on the resulting state, or a take after
`close_parent_ends`, fails with the lifecycle error instead of returning
descriptors. -/
theorem take_retained_ends_one_shot (p : StdioPipes) (a b c : Nat)
    (ha : p.parent_stdin_fd = some a) (hb : p.parent_stdout_fd = some b)
    (hc : p.parent_stderr_fd = some c) :
    build_sync_streams p = .ok ((a, b, c),
        { p with parent_stdin_fd := none, parent_stdout_fd := none, parent_stderr_fd := none })
    ∧ build_sync_streams
        { p with parent_stdin_fd := none, parent_stdout_fd := none, parent_stderr_fd := none }
        = .error (.runtimeError "stdio pipes already closed")
    ∧ ∀ os, build_sync_streams (close_parent_ends p os).1
        = .error (.runtimeError "stdio pipes already closed") := by
  refine ⟨?_, ?_, ?_⟩
  · simp [build_sync_streams, ha, hb, hc]
  · simp [build_sync_streams]
  · intro os
    simp [build_sync_streams, close_parent_ends]

/-- Witness for C9 at a concrete substrate state. -/
theorem take_retained_ends_one_shot_witness :
    build_sync_streams pConc = .ok ((4, 5, 7),
        { pConc with parent_stdin_fd := none, parent_stdout_fd := none, parent_stderr_fd := none })
    ∧ build_sync_streams
        { pConc with parent_stdin_fd := none, parent_stdout_fd := none, parent_stderr_fd := none }
        = .error (.runtimeError "stdio pipes already closed")
    ∧ ∀ os, build_sync_streams (close_parent_ends pConc os).1
        = .error (.runtimeError "stdio pipes already closed") :=
  take_retained_ends_one_shot pConc 4 5 7 rfl rfl rfl

/-- C3 (failing evaluation): two resume calls against the same image
directory whose `int(time.time())` reads fall in the same second — here two
otherwise different concurrent calls at second 12345 — construct the same
pidfile path and the same log path, so the paths are not distinct per call. -/
theorem concurrent_thaw_same_second_same_paths :
    (build_thaw_context twFail fsMeta "/img" []).map (fun c => (c.pidfile, c.log_path))
        = .ok ("/img/goblin-thaw.12345.pid", "/img/goblin-thaw.12345.log")
    ∧ (build_thaw_context twSecond fsMeta "/img" []).map (fun c => (c.pidfile, c.log_path))
        = .ok ("/img/goblin-thaw.12345.pid", "/img/goblin-thaw.12345.log") := by
  exact ⟨rfl, rfl⟩

/-- C1 (failing evaluation): a thaw whose restore engine exits with status 1
does fail with an error carrying the exit status and the log excerpt, but
the three donated child descriptors (3, 6, 8 of the pipes allocated as
3–8) remain open in the calling process afterwards — only the retained
ends 4, 5, 7 were closed, because `close_child_fds()` sits after the raise
in `_run_criu_restore` and `thaw`'s unwind closes only parent ends. -/
theorem restore_failure_leaves_donated_fds_open :
    thaw twFail fsMeta ⟨[], []⟩ "/img" []
      = (.error (.runtimeError "CRIU restore failed with exit code 1. Log tail:\nboom"),
         { openFds := [3, 6, 8], inheritable := [3, 6, 8] }) := by
  rfl

/-- C10: the synchronous freeze rejects every non-positive pid with
`ValueError` before any external effect (the result and the untouched
filesystem slice are the same for every world); the asynchronous variant
performs no pid validation, so at pid 0 it instead surfaces whatever the
context build does — here the platform check's RuntimeError — and the two
public entry points disagree. -/
theorem freeze_pid_validation_sync_only :
    (∀ (w : FreezeWorld) (fs : FS) (pid : Int) (dir : String) (lr : Bool)
        (lp : Option String) (v : Nat) (ea : List String), pid ≤ 0 →
      freeze w fs pid dir lr lp v ea
        = (.error (.valueError "PID must be a positive integer"), fs))
    ∧ freeze_async fwNoLinux fsEmpty 0 "/img" true none 4 []
        = (.error (.runtimeError "goblins require Linux"), fsEmpty)
    ∧ (freeze_async fwNoLinux fsEmpty 0 "/img" true none 4 []).1
        ≠ (freeze fwNoLinux fsEmpty 0 "/img" true none 4 []).1 := by
  refine ⟨?_, rfl, ?_⟩
  · intro w fs pid dir lr lp v ea h
    simp [freeze, h]
  · intro h
    have h1 : (freeze_async fwNoLinux fsEmpty 0 "/img" true none 4 []).1
        = .error (.runtimeError "goblins require Linux") := rfl
    have h2 : (freeze fwNoLinux fsEmpty 0 "/img" true none 4 []).1
        = .error (.valueError "PID must be a positive integer") := rfl
    rw [h1, h2] at h
    exact PyError.noConfusion (Except.error.inj h)

/-- Witness for C10 at pid 0. -/
theorem freeze_pid_validation_sync_only_witness :
    freeze fwNoLinux fsEmpty 0 "/img" true none 4 []
      = (.error (.valueError "PID must be a positive integer"), fsEmpty) :=
  freeze_pid_validation_sync_only.1 fwNoLinux fsEmpty 0 "/img" true none 4 [] (by decide)

/-- C4: building a substrate from a triple allocates three pipes and splits
their ends by stream direction: stdin's read end is donated (inheritable,
bound to the triple's stdin identity in the inheritance instructions) with
the write end retained; stdout's and stderr's write ends are donated
(inheritable, bound to their identities) with the read ends retained. -/
theorem create_pipes_assigns_ends_by_direction (t : PipeIds) (a : PipeAlloc) (os : OS)
    (h1 : a.r_stdin ≠ a.w_stdout) (h2 : a.r_stdin ≠ a.w_stderr)
    (h3 : a.w_stdout ≠ a.w_stderr) :
    (create_pipes t a os).1.parent_stdin_fd = some a.w_stdin
    ∧ (create_pipes t a os).1.parent_stdout_fd = some a.r_stdout
    ∧ (create_pipes t a os).1.parent_stderr_fd = some a.r_stderr
    ∧ (create_pipes t a os).1.child_fds = [a.r_stdin, a.w_stdout, a.w_stderr]
    ∧ (create_pipes t a os).2.openFds
        = os.openFds ++ [a.r_stdin, a.w_stdin, a.r_stdout, a.w_stdout, a.r_stderr, a.w_stderr]
    ∧ (create_pipes t a os).2.inheritable = os.inheritable ++ [a.r_stdin, a.w_stdout, a.w_stderr]
    ∧ (create_pipes t a os).1.inherit_args
        = ["--inherit-fd", inheritArg a.r_stdin t.stdin,
           "--inherit-fd", inheritArg a.w_stdout t.stdout,
           "--inherit-fd", inheritArg a.w_stderr t.stderr] := by
  refine ⟨rfl, rfl, rfl, rfl, ?_, ?_, ?_⟩
  · simp [create_pipes, osPipe, osSetInheritable]
  · simp [create_pipes, osPipe, osSetInheritable]
  · simp [create_pipes, dictInsert, Ne.symm h1, Ne.symm h2, Ne.symm h3]

/-- Witness for C4 at the concrete allocation 3–8. -/
theorem create_pipes_assigns_ends_by_direction_witness :
    (create_pipes tripleConc ⟨3, 4, 5, 6, 7, 8⟩ ⟨[], []⟩).1.parent_stdin_fd = some 4
    ∧ (create_pipes tripleConc ⟨3, 4, 5, 6, 7, 8⟩ ⟨[], []⟩).1.parent_stdout_fd = some 5
    ∧ (create_pipes tripleConc ⟨3, 4, 5, 6, 7, 8⟩ ⟨[], []⟩).1.parent_stderr_fd = some 7
    ∧ (create_pipes tripleConc ⟨3, 4, 5, 6, 7, 8⟩ ⟨[], []⟩).1.child_fds = [3, 6, 8]
    ∧ (create_pipes tripleConc ⟨3, 4, 5, 6, 7, 8⟩ ⟨[], []⟩).2.openFds
        = ([] : List Nat) ++ [3, 4, 5, 6, 7, 8]
    ∧ (create_pipes tripleConc ⟨3, 4, 5, 6, 7, 8⟩ ⟨[], []⟩).2.inheritable
        = ([] : List Nat) ++ [3, 6, 8]
    ∧ (create_pipes tripleConc ⟨3, 4, 5, 6, 7, 8⟩ ⟨[], []⟩).1.inherit_args
        = ["--inherit-fd", inheritArg 3 tripleConc.stdin,
           "--inherit-fd", inheritArg 6 tripleConc.stdout,
           "--inherit-fd", inheritArg 8 tripleConc.stderr] :=
  create_pipes_assigns_ends_by_direction tripleConc ⟨3, 4, 5, 6, 7, 8⟩ ⟨[], []⟩
    (by decide) (by decide) (by decide)

/-- C2: when every stream of the target resolves but at least one target is
not an anonymous pipe, `freeze` fails with the RuntimeError naming the
first offending logical stream and its resolved target, and the metadata
filesystem slice is returned untouched — no Checkpoint Metadata Store file
is written. -/
theorem checkpoint_rejects_non_pipe_stdio
    (w : FreezeWorld) (fs : FS) (pid : Int) (dir : String) (lr : Bool)
    (lp : Option String) (v : Nat) (ea : List String) (cp t0 t1 t2 : String)
    (hpid : 0 < pid)
    (hlinux : w.ensure_linux = .ok ()) (hsudo : w.ensure_sudo = .ok ())
    (hcriu : w.ensure_criu = .ok (some cp)) (hcp : cp ≠ "")
    (h0 : w.readlink pid 0 = .ok t0) (h1 : w.readlink pid 1 = .ok t1)
    (h2 : w.readlink pid 2 = .ok t2)
    (hbad : ¬ (startsWithPy t0 "pipe:[" = true ∧ startsWithPy t1 "pipe:[" = true
               ∧ startsWithPy t2 "pipe:[" = true)) :
    ∃ fd name target,
      freeze w fs pid dir lr lp v ea
        = (.error (.runtimeError (nonPipeMsg fd name target)), fs)
      ∧ startsWithPy target "pipe:[" = false
      ∧ ((fd, name, target) = (0, "stdin", t0) ∨ (fd, name, target) = (1, "stdout", t1)
          ∨ (fd, name, target) = (2, "stderr", t2)) := by
  have hple : ¬ pid ≤ 0 := by omega
  by_cases s0 : startsWithPy t0 "pipe:[" = true
  · by_cases s1 : startsWithPy t1 "pipe:[" = true
    · have s2 : startsWithPy t2 "pipe:[" = false := by
        rcases Bool.eq_false_or_eq_true (startsWithPy t2 "pipe:[") with h | h
        · exact absurd ⟨s0, s1, h⟩ hbad
        · exact h
      refine ⟨2, "stderr", t2, ?_, s2, Or.inr (Or.inr rfl)⟩
      simp [freeze, hple, build_freeze_context, hlinux, hsudo, hcriu, pyFalsyStrOpt, hcp,
        collect_pipe_ids_from_proc, collectOne, h0, h1, h2, s0, s1, s2]
    · have s1' : startsWithPy t1 "pipe:[" = false := by simpa using s1
      refine ⟨1, "stdout", t1, ?_, s1', Or.inr (Or.inl rfl)⟩
      simp [freeze, hple, build_freeze_context, hlinux, hsudo, hcriu, pyFalsyStrOpt, hcp,
        collect_pipe_ids_from_proc, collectOne, h0, h1, s0, s1']
  · have s0' : startsWithPy t0 "pipe:[" = false := by simpa using s0
    refine ⟨0, "stdin", t0, ?_, s0', Or.inl rfl⟩
    simp [freeze, hple, build_freeze_context, hlinux, hsudo, hcriu, pyFalsyStrOpt, hcp,
      collect_pipe_ids_from_proc, collectOne, h0, s0']

/-- Witness for C2: a freeze whose target has a terminal on fd 1. -/
theorem checkpoint_rejects_non_pipe_stdio_witness :
    ∃ fd name target,
      freeze fwBadTty fsEmpty 9 "/img" true none 4 []
        = (.error (.runtimeError (nonPipeMsg fd name target)), fsEmpty)
      ∧ startsWithPy target "pipe:[" = false
      ∧ ((fd, name, target) = (0, "stdin", "pipe:[100]")
          ∨ (fd, name, target) = (1, "stdout", "/dev/pts/0")
          ∨ (fd, name, target) = (2, "stderr", "pipe:[100]")) :=
  checkpoint_rejects_non_pipe_stdio fwBadTty fsEmpty 9 "/img" true none 4 []
    "/usr/bin/criu" "pipe:[100]" "/dev/pts/0" "pipe:[100]"
    (by decide) rfl rfl rfl (by decide) rfl rfl rfl (by decide)

/-- C6: a missing metadata file reads back as the empty record rather than
an error; a resume over such a directory falls back to the Image Identity
Recoverer's triple; and when the file holds a `pipe_ids` record, the thaw
context carries exactly that record and is unchanged under any recoverer
oracle — the recoverer is not consulted. -/
theorem metadata_absent_fallback_present_use
    (w : ThawWorld) (fs : FS) (dir cns : String) (ea : List String) (t : PipeIds) :
    (fs (metadata_path dir) = none → load_metadata fs dir = JVal.obj [])
    ∧ (fs (metadata_path dir) = none → w.dirExists dir = true →
        w.pipe_ids_from_images dir = .ok t → w.criu_ns = .ok cns →
        ∃ ctx, build_thaw_context w fs dir ea = .ok ctx ∧ ctx.pipe_ids = tripleToJson t)
    ∧ (∀ (v : JVal) (rec rec' : String → Except PyError PipeIds),
        metaLookup (load_metadata fs dir) "pipe_ids" = some v →
        build_thaw_context { w with pipe_ids_from_images := rec } fs dir ea
          = build_thaw_context { w with pipe_ids_from_images := rec' } fs dir ea
        ∧ ∀ ctx, build_thaw_context w fs dir ea = .ok ctx → ctx.pipe_ids = v) := by
  refine ⟨?_, ?_, ?_⟩
  · intro hnone
    simp [load_metadata, hnone]
  · intro hnone hex hrec hcns
    simp [build_thaw_context, load_metadata, hnone, hex, metaLookup, jLookup, hrec, hcns,
      Except.map]
  · intro v rec rec' hv
    constructor
    · simp [build_thaw_context, hv]
    · intro ctx hctx
      by_cases hd : w.dirExists dir
      · simp [build_thaw_context, hd, hv] at hctx
        cases hcn : w.criu_ns with
        | ok c =>
            simp [hcn] at hctx
            rw [← hctx]
        | error e =>
            cases hcu : w.criu with
            | ok c =>
                simp [hcn, hcu, Except.map] at hctx
                rw [← hctx]
            | error e' =>
                simp [hcn, hcu, Except.map] at hctx
      · simp [build_thaw_context, hd] at hctx

/-- Witness for C6: fallback on an empty directory, and metadata use under
the world whose recoverer fails. -/
theorem metadata_absent_fallback_present_use_witness :
    (∃ ctx, build_thaw_context twRecover fsEmpty "/img" [] = .ok ctx
        ∧ ctx.pipe_ids = tripleToJson tripleConc)
    ∧ (∀ ctx, build_thaw_context twFail fsMeta "/img" [] = .ok ctx
        → ctx.pipe_ids = tripleToJson tripleConc) :=
  ⟨(metadata_absent_fallback_present_use twRecover fsEmpty "/img" "/usr/sbin/criu-ns" []
      tripleConc).2.1 rfl rfl rfl rfl,
   ((metadata_absent_fallback_present_use twFail fsMeta "/img" "/usr/sbin/criu-ns" []
      tripleConc).2.2 (tripleToJson tripleConc)
      twFail.pipe_ids_from_images twFail.pipe_ids_from_images rfl).2⟩

/-- Stepping lemma for the `crit show` loop: a variant either returns its
parsed output or the loop continues with that variant's error recorded. -/
theorem critGo_step (w : CritWorld) (cb path : String) (a : List String)
    (rest : List (List String)) (last : Option String) :
    critGo w cb path (a :: rest) last =
      match variantOutcome w cb a with
      | .ok v => .ok v
      | .error e => critGo w cb path rest (some e) := by
  simp only [critGo, variantOutcome]
  by_cases h : (w.run (cb :: a)).1 ≠ 0
  · simp [h]
  · simp only [h, if_false, ite_false]
    cases w.parse (w.run (cb :: a)).2.1 <;> simp

/-- The loop returns the first variant outcome that parses. -/
theorem critGo_first_ok (w : CritWorld) (cb path : String) :
    ∀ (vs : List (List String)) (last : Option String) (v : JVal),
      firstOkJson w cb vs = some v → critGo w cb path vs last = .ok v := by
  intro vs
  induction vs with
  | nil =>
      intro last v h
      simp [firstOkJson] at h
  | cons a rest ih =>
      intro last v h
      rw [critGo_step]
      cases hv : variantOutcome w cb a with
      | ok u =>
          simp only [firstOkJson, hv, Option.some.injEq] at h
          simp [h]
      | error e =>
          simp only [firstOkJson, hv] at h
          simpa using ih (some e) v h

/-- When every variant fails, the loop surfaces the last variant's error. -/
theorem critGo_all_fail (w : CritWorld) (cb path : String) :
    ∀ (vs : List (List String)) (last : Option String) (al : List String) (e : String),
      (∀ a ∈ vs, ∃ err, variantOutcome w cb a = .error err) →
      vs.getLast? = some al → variantOutcome w cb al = .error e →
      critGo w cb path vs last
        = .error (.runtimeError ("crit show failed for " ++ path ++ ": " ++
            lastOr (some e) "unknown error")) := by
  intro vs
  induction vs with
  | nil =>
      intro last al e _ hl _
      simp at hl
  | cons a rest ih =>
      intro last al e hall hl hale
      rcases hall a (by simp) with ⟨err, herr⟩
      rw [critGo_step, herr]
      cases rest with
      | nil =>
          simp at hl
          subst hl
          rw [herr] at hale
          have he : err = e := Except.error.inj hale
          subst he
          simp [critGo]
      | cons b rs =>
          have hl' : (b :: rs).getLast? = some al := by
            rw [List.getLast?_cons_cons] at hl
            exact hl
          exact ih (some err) al e (fun x hx => hall x (by simp [hx])) hl' hale

/-- C7: the image-introspection renderer tries its fixed invocation-variant
list in order: the call returns the parsed output of the first variant
that exits zero with parseable JSON, and when every variant fails it
raises, surfacing the last variant's error in the message (with the
"unknown error" placeholder when that error text is empty). -/
theorem crit_show_json_first_success_or_last_error (w : CritWorld) (cb path : String) :
    (∀ v, firstOkJson w cb (candidate_args path) = some v →
        crit_show_json w cb path = .ok v)
    ∧ (∀ e, (∀ a ∈ candidate_args path, ∃ err, variantOutcome w cb a = .error err) →
        variantOutcome w cb ["show", path] = .error e →
        crit_show_json w cb path = .error (.runtimeError
          ("crit show failed for " ++ path ++ ": " ++ lastOr (some e) "unknown error"))) := by
  constructor
  · intro v h
    exact critGo_first_ok w cb path _ none v h
  · intro e hall he
    exact critGo_all_fail w cb path (candidate_args path) none ["show", path] e hall rfl he

/-- Witness for C7: a crit that always prints `\x7b\x7d`, and one whose every
invocation fails with stderr `enoent`. -/
theorem crit_show_json_first_success_or_last_error_witness :
    crit_show_json cwOk "crit" "/img/files.img" = .ok (.obj [])
    ∧ crit_show_json cwFail "crit" "/img/files.img"
        = .error (.runtimeError "crit show failed for /img/files.img: enoent") := by
  constructor
  · exact (crit_show_json_first_success_or_last_error cwOk "crit" "/img/files.img").1
      (.obj []) rfl
  · exact (crit_show_json_first_success_or_last_error cwFail "crit" "/img/files.img").2
      "enoent" (fun a _ => ⟨"enoent", rfl⟩) rfl

/-- If the k-shifted observation stream first shows all-digit content at
poll i within the remaining fuel, the pidfile wait returns that integer. -/
theorem wait_for_pidfile_success (obs : Nat → Option String) (pf : String) :
    ∀ (fuel k i : Nat) (raw : String), i < fuel →
      obs (k + i) = some raw → pyIsDigit (pyStrip raw) = true →
      (∀ j, j < i → ∀ r, obs (k + j) = some r → pyIsDigit (pyStrip r) = false) →
      wait_for_pidfile obs pf fuel k = .ok (pyParseNat (pyStrip raw)) := by
  intro fuel
  induction fuel with
  | zero =>
      intro k i raw hi
      exact absurd hi (Nat.not_lt_zero i)
  | succ fuel ih =>
      intro k i raw hi hobs hdig hfirst
      cases i with
      | zero =>
          rw [Nat.add_zero] at hobs
          simp [wait_for_pidfile, hobs, hdig]
      | succ i' =>
          have hrec : wait_for_pidfile obs pf fuel (k + 1) = .ok (pyParseNat (pyStrip raw)) := by
            apply ih (k + 1) i' raw (by omega)
            · have heq : k + 1 + i' = k + (i' + 1) := by omega
              rw [heq]
              exact hobs
            · exact hdig
            · intro j hj r hr
              have heq : k + 1 + j = k + (j + 1) := by omega
              rw [heq] at hr
              exact hfirst (j + 1) (by omega) r hr
          cases hok : obs k with
          | none => simp [wait_for_pidfile, hok, hrec]
          | some r =>
              have hf : pyIsDigit (pyStrip r) = false :=
                hfirst 0 (Nat.succ_pos i') r (by simpa using hok)
              simp [wait_for_pidfile, hok, hf, hrec]

/-- If no poll within the remaining fuel shows all-digit content, the
pidfile wait times out. -/
theorem wait_for_pidfile_timeout (obs : Nat → Option String) (pf : String) :
    ∀ (fuel k : Nat),
      (∀ j, j < fuel → ∀ r, obs (k + j) = some r → pyIsDigit (pyStrip r) = false) →
      wait_for_pidfile obs pf fuel k
        = .error (.runtimeError ("Timed out waiting for CRIU pidfile " ++ pf)) := by
  intro fuel
  induction fuel with
  | zero =>
      intro k _
      simp [wait_for_pidfile]
  | succ fuel ih =>
      intro k hall
      have hrec := ih (k + 1) (fun j hj r hr => by
        have heq : k + 1 + j = k + (j + 1) := by omega
        rw [heq] at hr
        exact hall (j + 1) (by omega) r hr)
      cases hok : obs k with
      | none => simp [wait_for_pidfile, hok, hrec]
      | some r =>
          have hf : pyIsDigit (pyStrip r) = false :=
            hall 0 (Nat.succ_pos fuel) r (by simpa using hok)
          simp [wait_for_pidfile, hok, hf, hrec]

/-- C8: after a successful restore invocation, the pidfile is polled up to
the bounded number of polls the timeout allows: if some poll within the
bound finds the file holding (after stripping) an all-digit string — and
it is the first poll to do so — the parsed integer is returned as the pid;
if no poll within the bound ever does, the call fails with the timeout
error. -/
theorem wait_for_pidfile_first_digit_or_timeout (obs : Nat → Option String)
    (pf : String) (fuel : Nat) :
    (∀ i raw, i < fuel → obs i = some raw → pyIsDigit (pyStrip raw) = true →
      (∀ j, j < i → ∀ r, obs j = some r → pyIsDigit (pyStrip r) = false) →
      wait_for_pidfile obs pf fuel 0 = .ok (pyParseNat (pyStrip raw)))
    ∧ ((∀ j, j < fuel → ∀ r, obs j = some r → pyIsDigit (pyStrip r) = false) →
      wait_for_pidfile obs pf fuel 0
        = .error (.runtimeError ("Timed out waiting for CRIU pidfile " ++ pf))) := by
  constructor
  · intro i raw hi hobs hdig hfirst
    apply wait_for_pidfile_success obs pf fuel 0 i raw hi (by simpa using hobs) hdig
    intro j hj r hr
    exact hfirst j hj r (by simpa using hr)
  · intro hall
    exact wait_for_pidfile_timeout obs pf fuel 0
      (fun j hj r hr => hall j hj r (by simpa using hr))

/-- Witness for C8: a pidfile appearing at the third poll with whitespace
around the pid, and one that always holds non-digit content. -/
theorem wait_for_pidfile_first_digit_or_timeout_witness :
    wait_for_pidfile obsLate "/img/goblin-thaw.12345.pid" 250 0 = .ok 4242
    ∧ wait_for_pidfile obsJunk "/img/goblin-thaw.12345.pid" 250 0
        = .error (.runtimeError "Timed out waiting for CRIU pidfile /img/goblin-thaw.12345.pid") := by
  constructor
  · exact (wait_for_pidfile_first_digit_or_timeout obsLate "/img/goblin-thaw.12345.pid" 250).1
      2 " 4242\n" (by omega) rfl rfl
      (fun j hj r hr => by
        have hne : j ≠ 2 := by omega
        simp [obsLate, hne] at hr)
  · exact (wait_for_pidfile_first_digit_or_timeout obsJunk "/img/goblin-thaw.12345.pid" 250).2
      (fun j hj r hr => by
        have hr' : r = "pending" := by
          simpa [obsJunk, eq_comm] using hr
        subst hr'
        rfl)

end PdumCriu
